import Mathlib

/-!
Verification of the client-side orchestration core of the LDS ILO chatbot
(`src/App.jsx`) against its natural-language specification.

The JavaScript source is shallowly embedded: JS objects become Lean
structures with `Option` fields for possibly-absent properties, JS
truthiness is made explicit (`""`, `0`, `null`/absent are falsy), dates in
`updated_at` are modelled by their parsed numeric timestamp (`Option Nat`,
`none` = absent; a present value stands for a non-empty, parseable
timestamp string, hence truthy), and the React component state mutated by
the handlers becomes an explicit `ChatState` record threaded through pure
transition functions.  Network calls are split into a `...Start` function
(the synchronous prefix, returning the updated state and the request that
is issued, if any) and a `...Finish` function (the response handler).
-/

/-! ## Data model (from `src/App.jsx` and the backend entity shapes) -/

/-- One element of an entity's `translation` array. -/
structure Translation where
  lang_code : String
  name : Option String
  statement : Option String
  updated_at : Option Nat
deriving Repr, DecidableEq

/-- A translatable backend entity: subjects, grade levels, verbs and ILO
pattern templates all share this shape. -/
structure Entity where
  id : Int
  name : Option String
  statement : Option String
  translation : Option (List Translation)
deriving Repr, DecidableEq

/-- A Bloom taxonomy level; it additionally owns its verb list
(`bloom_taxonomy_verbs`, absent when the backend omitted the field). -/
structure BloomLevel where
  id : Int
  name : Option String
  translation : Option (List Translation)
  bloom_taxonomy_verbs : Option (List Entity)
deriving Repr, DecidableEq

/-- An ILO category with its two Bloom-related booleans (absent fields are
falsy in JS, so they are modelled as plain `Bool`). -/
structure Category where
  id : Int
  name : String
  show_bloom_taxonomy : Bool
  require_bloom_taxonomy : Bool
deriving Repr, DecidableEq

/-- JS truthiness of an optional string property (absent and `""` are falsy);
returns the value when truthy. -/
def truthyStr : Option String → Option String
  | some s => if s = "" then none else some s
  | none => none

/-- The stable descending sort on parsed `updated_at` performed by
`matchingTranslations.sort((a, b) => new Date(b.updated_at || 0) - new Date(a.updated_at || 0))`:
a missing date is epoch 0, and the engine's `Array.prototype.sort` is
stable, so equal keys keep their original relative order. -/
def updatedKey (t : Translation) : Nat := t.updated_at.getD 0

/-- Insert into a descending-sorted list, after all entries with a key
greater than or equal to the new one (stability). -/
def insertDesc (t : Translation) : List Translation → List Translation
  | [] => [t]
  | h :: r => if updatedKey t ≤ updatedKey h then h :: insertDesc t r else t :: h :: r

/-- Stable sort, descending by `updatedKey`. -/
def sortDesc (l : List Translation) : List Translation :=
  l.foldl (fun acc t => insertDesc t acc) []

/-- The `for (const langCode of preferredOrder)` loop: return the first
locale for which `hit` produces a value. -/
def forLocales (hit : String → Option String) : List String → Option String
  | [] => none
  | lc :: rest =>
    match hit lc with
    | some n => some n
    | none => forLocales hit rest

/-- Body of one loop iteration of `getGradeLevelName` / `getBloomLevelName`
/ `getVerbName`: `translation.find(t => t.lang_code === langCode)` followed
by the truthiness check `if (translation && translation.name)`. -/
def localeNameHit (ts : List Translation) (lc : String) : Option String :=
  match ts.find? (fun t => t.lang_code == lc) with
  | some t => truthyStr t.name
  | none => none

/-- Same loop body for `getPatternStatement`, reading `statement`. -/
def localeStmtHit (ts : List Translation) (lc : String) : Option String :=
  match ts.find? (fun t => t.lang_code == lc) with
  | some t => truthyStr t.statement
  | none => none

/-- Body of one loop iteration of `getSubjectName`: collect all matching
translations; when there is more than one match AND the first match has a
(truthy) `updated_at`, stable-sort them descending by parsed date and take
the head; otherwise take the first match; then the truthiness check on
`.name`. -/
def subjectLocaleHit (ts : List Translation) (lc : String) : Option String :=
  match ts.filter (fun t => t.lang_code == lc) with
  | [] => none
  | m0 :: rest =>
    if 0 < rest.length ∧ m0.updated_at.isSome then
      match sortDesc (m0 :: rest) with
      | [] => none
      | sFirst :: _ => truthyStr sFirst.name
    else truthyStr m0.name

/-- `getSubjectName(subject, locale = "zh_HK")` from `src/App.jsx`. -/
def getSubjectName (subject : Entity) (locale : String := "zh_HK") : String :=
  match subject.translation with
  | none => subject.name.getD ""
  | some ts =>
    match forLocales (subjectLocaleHit ts) [locale, "zh_HK", "en_US", "zh_CN"] with
    | some n => n
    | none =>
      match ts with
      | t0 :: _ =>
        match truthyStr t0.name with
        | some n => n
        | none => subject.name.getD ""
      | [] => subject.name.getD ""

/-- `getGradeLevelName(gradeLevel, locale = "zh_HK")` from `src/App.jsx`. -/
def getGradeLevelName (gradeLevel : Entity) (locale : String := "zh_HK") : String :=
  match gradeLevel.translation with
  | none => gradeLevel.name.getD ""
  | some ts =>
    match forLocales (localeNameHit ts) [locale, "zh_HK", "en_US", "zh_CN"] with
    | some n => n
    | none =>
      match ts with
      | t0 :: _ =>
        match truthyStr t0.name with
        | some n => n
        | none => gradeLevel.name.getD ""
      | [] => gradeLevel.name.getD ""

/-- `getBloomLevelName(level, locale = "zh_HK")` from `src/App.jsx`. -/
def getBloomLevelName (level : BloomLevel) (locale : String := "zh_HK") : String :=
  match level.translation with
  | none => level.name.getD ""
  | some ts =>
    match forLocales (localeNameHit ts) [locale, "zh_HK", "en_US", "zh_CN"] with
    | some n => n
    | none =>
      match ts with
      | t0 :: _ =>
        match truthyStr t0.name with
        | some n => n
        | none => level.name.getD ""
      | [] => level.name.getD ""

/-- `getVerbName(verb, locale = "zh_HK")` from `src/App.jsx`. -/
def getVerbName (verb : Entity) (locale : String := "zh_HK") : String :=
  match verb.translation with
  | none => verb.name.getD ""
  | some ts =>
    match forLocales (localeNameHit ts) [locale, "zh_HK", "en_US", "zh_CN"] with
    | some n => n
    | none =>
      match ts with
      | t0 :: _ =>
        match truthyStr t0.name with
        | some n => n
        | none => verb.name.getD ""
      | [] => verb.name.getD ""

/-- `getPatternStatement(pattern, locale = "zh_HK")` from `src/App.jsx`. -/
def getPatternStatement (pattern : Entity) (locale : String := "zh_HK") : String :=
  match pattern.translation with
  | none => pattern.statement.getD ""
  | some ts =>
    match forLocales (localeStmtHit ts) [locale, "zh_HK", "en_US", "zh_CN"] with
    | some n => n
    | none =>
      match ts with
      | t0 :: _ =>
        match truthyStr t0.statement with
        | some n => n
        | none => pattern.statement.getD ""
      | [] => pattern.statement.getD ""

/-! ## The resolver algorithm as the specification words it (for C1)

The spec claims a single algorithm for all five entity kinds: per locale,
collect all matches and, when more than one matches and at least one has
`updated_at`, take the latest by parsed date (stable on ties); the first
locale yielding a non-empty value wins, then first translation, then the
entity's own field, then `""`. -/

/-- Per-locale step of the claimed algorithm. -/
def claimLocaleHit (tfield : Translation → Option String)
    (ts : List Translation) (lc : String) : Option String :=
  match ts.filter (fun t => t.lang_code == lc) with
  | [] => none
  | m0 :: rest =>
    let chosen :=
      if 0 < rest.length ∧ (m0 :: rest).any (fun t => t.updated_at.isSome) then
        (sortDesc (m0 :: rest)).headD m0
      else m0
    truthyStr (tfield chosen)

/-- The display-name algorithm exactly as the specification states it,
parametrised by which text field is read. -/
def resolveDisplayNameClaim (tfield : Translation → Option String)
    (ownField : Option String) (ts? : Option (List Translation))
    (preferred : String) : String :=
  let ts := ts?.getD []
  match forLocales (claimLocaleHit tfield ts) [preferred, "zh_HK", "en_US", "zh_CN"] with
  | some n => n
  | none =>
    match ts with
    | t0 :: _ =>
      match truthyStr (tfield t0) with
      | some n => n
      | none => ownField.getD ""
    | [] => ownField.getD ""

/-! ## The amended resolver algorithms (for C1)

What the code actually does, stated independently of the code's control
flow: `getSubjectName` picks per locale among all matches (latest
`updated_at` when there are several matches and the FIRST one carries an
`updated_at`); the four other resolvers simply pick the first translation
matching the locale. -/

/-- Amended per-locale pick for the four `find`-based resolvers: the first
match in original order. -/
def amendedPickFirst (ts : List Translation) (lc : String) : Option Translation :=
  (ts.filter (fun t => t.lang_code == lc)).head?

/-- Amended per-locale pick for `getSubjectName`. -/
def amendedPickSubject (ts : List Translation) (lc : String) : Option Translation :=
  match ts.filter (fun t => t.lang_code == lc) with
  | [] => none
  | m0 :: rest =>
    some (if 0 < rest.length ∧ m0.updated_at.isSome then
            (sortDesc (m0 :: rest)).headD m0
          else m0)

/-- The four-tier fallback shared by all five resolvers, parametrised by
the per-locale pick: chain hit, else first translation, else the entity's
own field, else `""`. -/
def resolveAmended (pick : List Translation → String → Option Translation)
    (tfield : Translation → Option String) (ownField : Option String)
    (ts? : Option (List Translation)) (preferred : String) : String :=
  match ts? with
  | none => ownField.getD ""
  | some ts =>
    match forLocales (fun lc => (pick ts lc).bind (fun t => truthyStr (tfield t)))
        [preferred, "zh_HK", "en_US", "zh_CN"] with
    | some n => n
    | none =>
      match ts with
      | t0 :: _ =>
        match truthyStr (tfield t0) with
        | some n => n
        | none => ownField.getD ""
      | [] => ownField.getD ""

/-- Grade level with two `zh_HK` translations, the second one more recently
updated — the spec's own duplicate-locale tie-break scenario. -/
def gradeDup : Entity :=
  { id := 1, name := some "own", statement := none,
    translation := some
      [ { lang_code := "zh_HK", name := some "A", statement := none, updated_at := some 100 }
      , { lang_code := "zh_HK", name := some "B", statement := none, updated_at := some 200 } ] }

/-! ## JSON values

Backend response bodies are dynamically shaped; they are embedded as a
small JSON AST.  JS property access on a non-object (or a missing key)
yields `undefined`, modelled as `none`. -/

inductive JVal where
  | str (s : String)
  | num (n : Int)
  | bool (b : Bool)
  | null
  | arr (elems : List JVal)
  | obj (fields : List (String × JVal))
deriving Repr

/-- JS truthiness of a value (`""`, `0`, `false`, `null` are falsy; every
array and object is truthy). -/
def jsTruthy : JVal → Bool
  | .str s => !(s == "")
  | .num n => !(n == 0)
  | .bool b => b
  | .null => false
  | .arr _ => true
  | .obj _ => true

/-- Property access `v[k]`; `none` is JS `undefined`. -/
def getField : JVal → String → Option JVal
  | .obj fs, k => (fs.find? (fun f => f.1 == k)).map (fun f => f.2)
  | _, _ => none

/-- Optional-chained access `v?.k1?.k2`. -/
def optChain2 (v : JVal) (k1 k2 : String) : Option JVal :=
  match getField v k1 with
  | some w => getField w k2
  | none => none

/-- JS `a || d` where `a` is a possibly-`undefined` property value. -/
def jsOrDefault (a : Option JVal) (d : JVal) : JVal :=
  match a with
  | some v => if jsTruthy v then v else d
  | none => d

/-- JS template-literal/`String(...)` conversion, used where the code
interpolates a dynamic value into a message string. -/
def jsDisplay : JVal → String
  | .str s => s
  | .num n => toString n
  | .bool b => if b then "true" else "false"
  | .null => "null"
  | .arr _ => ""
  | .obj _ => "[object Object]"

/-- JS `String.prototype.trim()`, written by structural recursion so that
it evaluates definitionally (Lean's own `String.trim` is defined by
well-founded recursion on byte positions and does not reduce). -/
def trimChars (l : List Char) : List Char :=
  ((l.dropWhile Char.isWhitespace).reverse.dropWhile Char.isWhitespace).reverse

def jsTrim (s : String) : String := String.mk (trimChars s.data)

def escapeJsonChar (c : Char) : String :=
  if c = '"' then "\\\""
  else if c = '\\' then "\\\\"
  else if c = '\n' then "\\n"
  else if c = '\t' then "\\t"
  else if c = '\r' then "\\r"
  else String.singleton c

def escapeJson (s : String) : String :=
  String.join (s.data.map escapeJsonChar)

mutual

/-- `JSON.stringify`, used by the generation flow's diagnostic message. -/
def jsonStringify : JVal → String
  | .str s => "\"" ++ escapeJson s ++ "\""
  | .num n => toString n
  | .bool b => if b then "true" else "false"
  | .null => "null"
  | .arr xs => "[" ++ String.intercalate "," (stringifyArr xs) ++ "]"
  | .obj fs => "\x7b" ++ String.intercalate "," (stringifyObj fs) ++ "\x7d"

def stringifyArr : List JVal → List String
  | [] => []
  | x :: xs => jsonStringify x :: stringifyArr xs

def stringifyObj : List (String × JVal) → List String
  | [] => []
  | (k, v) :: fs => ("\"" ++ escapeJson k ++ "\":" ++ jsonStringify v) :: stringifyObj fs

end

/-! ## Conversation state (the React state of the `App` component) -/

/-- A normalized ILO, `{statement}`. -/
structure Ilo where
  statement : JVal
deriving Repr

/-- A conversation message (the locally generated unique `id` is not
modelled; no claim depends on it). -/
structure Message where
  role : String
  text : String
  ilos : Option (List Ilo)
  suggestedQuestions : Option JVal
deriving Repr

/-- An `ActionDirective` as stored in `actionTemplates`:
`{patterns, presentation, context}`. -/
structure Directive where
  patterns : JVal
  presentation : JVal
  context : JVal
deriving Repr

/-- The component state read and written by the embedded handlers. -/
structure ChatState where
  messages : List Message
  isTyping : Bool
  isGeneratingILOs : Bool
  isUploading : Bool
  isAnalyzing : Bool
  inputValue : String
  uploadedFile : Option String
  topic : String
  selectedSubjectId : Option Int
  selectedGradeLevelId : Option Int
  selectedCategoryId : Option Int
  selectedBloomLevelId : Option Int
  selectedVerbId : Option Int
  availableVerbs : List Entity
  subjects : List Entity
  gradeLevels : List Entity
  iloCategories : List Category
  bloomLevels : List BloomLevel
  actionTemplates : Option Directive
deriving Repr

/-- JS truthiness of a selected-id state variable (`null` and `0` falsy). -/
def jsTruthyIdOpt : Option Int → Bool
  | none => false
  | some v => !(v == 0)

/-- `addMessage(role, text, ilos, suggestedQuestions)`: append-only. -/
def addMessage (s : ChatState) (role text : String)
    (ilos : Option (List Ilo)) (sq : Option JVal) : ChatState :=
  { s with messages := s.messages ++ [{ role := role, text := text, ilos := ilos, suggestedQuestions := sq }] }

/-- `addMessage("bot", text)`. -/
def addBot (s : ChatState) (text : String) : ChatState :=
  addMessage s "bot" text none none

/-- `iloCategories.find(cat => cat.id === selectedCategoryId)`. -/
def findCategory (s : ChatState) : Option Category :=
  match s.selectedCategoryId with
  | some v => s.iloCategories.find? (fun c => c.id == v)
  | none => none

/-- `bloomLevels.find(level => level.id === selectedBloomLevelId)`. -/
def findBloomLevel (s : ChatState) : Option BloomLevel :=
  match s.selectedBloomLevelId with
  | some v => s.bloomLevels.find? (fun l => l.id == v)
  | none => none

/-- `subjects.find(s => s.id === selectedSubjectId)`. -/
def findSubject (s : ChatState) : Option Entity :=
  match s.selectedSubjectId with
  | some v => s.subjects.find? (fun e => e.id == v)
  | none => none

/-- `gradeLevels.find(g => g.id === selectedGradeLevelId)`. -/
def findGradeLevel (s : ChatState) : Option Entity :=
  match s.selectedGradeLevelId with
  | some v => s.gradeLevels.find? (fun e => e.id == v)
  | none => none

/-! ## Selection Cascade (the two `useEffect` hooks, lines 658–693) -/

/-- The category-change effect: when a category is selected and resolves to
one with `show_bloom_taxonomy` falsy, clear the Bloom level, the verb and
the available verbs. -/
def categoryCascade (s : ChatState) : ChatState :=
  if jsTruthyIdOpt s.selectedCategoryId then
    match findCategory s with
    | some cat =>
      if cat.show_bloom_taxonomy then s
      else { s with selectedBloomLevelId := none, selectedVerbId := none, availableVerbs := [] }
    | none => s
  else s

/-- The Bloom-level-change effect: with no (truthy) level selected, clear
verbs; otherwise load the resolved level's verb list and auto-select its
first verb. -/
def bloomCascade (s : ChatState) : ChatState :=
  if jsTruthyIdOpt s.selectedBloomLevelId then
    match findBloomLevel s with
    | some lvl =>
      match lvl.bloom_taxonomy_verbs with
      | some vs =>
        { s with availableVerbs := vs, selectedVerbId := vs.head?.map (fun v => v.id) }
      | none => { s with availableVerbs := [], selectedVerbId := none }
    | none => { s with availableVerbs := [], selectedVerbId := none }
  else { s with availableVerbs := [], selectedVerbId := none }

/-- `SetCategory`: the radio `onChange` assignment followed by the category
effect. -/
def setCategory (s : ChatState) (v : Option Int) : ChatState :=
  categoryCascade { s with selectedCategoryId := v }

/-- `SetBloomLevel`: the select `onChange` assignment followed by the
Bloom-level effect. -/
def setBloomLevel (s : ChatState) (v : Option Int) : ChatState :=
  bloomCascade { s with selectedBloomLevelId := v }

/-- `SetVerb`: the verb select's `onChange` — direct assignment, no
cascading, no validation (lines 1390–1409). -/
def setVerb (s : ChatState) (v : Option Int) : ChatState :=
  { s with selectedVerbId := v }

/-- `SetTopic`: direct assignment. -/
def setTopic (s : ChatState) (t : String) : ChatState :=
  { s with topic := t }

/-- `SetSubject`: direct assignment. -/
def setSubject (s : ChatState) (v : Option Int) : ChatState :=
  { s with selectedSubjectId := v }

/-- `SetGrade`: direct assignment. -/
def setGrade (s : ChatState) (v : Option Int) : ChatState :=
  { s with selectedGradeLevelId := v }

/-- The SelectionState invariant: `verbId` references an entry currently in
`availableVerbs`, or is unset. -/
def verbInvariant (s : ChatState) : Prop :=
  match s.selectedVerbId with
  | none => True
  | some v => ∃ verb, verb ∈ s.availableVerbs ∧ verb.id = v

/-! ## Requests and responses -/

/-- One entry of `conversation_history`. -/
structure HistEntry where
  role : String
  content : String
deriving Repr, DecidableEq

/-- The `/api/chat` request body built by `sendMessage`.  A JS property set
only conditionally is an `Option`; `is_suggested_question` is only ever set
to `true`, so `false` stands for "absent". -/
structure ChatRequest where
  message : String
  is_suggested_question : Bool
  subject : Option String
  grade : Option String
  topic : Option String
  conversation_history : List HistEntry
deriving Repr, DecidableEq

/-- The multipart body built by `handleFileUploadAndAnalyze`. -/
structure AnalyzeRequest where
  fileName : String
  message : Option String
  subject : Option String
  grade : Option String
  topic : Option String
deriving Repr, DecidableEq

/-- The `/api/generate_ilos` request body. -/
structure GenRequest where
  topic : String
  subject : String
  grade : String
  category : String
  bloom_level : String
  action_verb : String
  disciplinary_practice : String
deriving Repr, DecidableEq

/-- A request issued by the engine. -/
inductive OutRequest where
  | chat (r : ChatRequest)
  | analyze (r : AnalyzeRequest)
  | gen (r : GenRequest)
deriving Repr

/-- What comes back from `fetch`: either an HTTP response (whose body may
fail to parse as JSON, `body = none`), or a transport-level failure (the
promise rejects, landing in the `catch` block). -/
inductive NetResponse where
  | httpResponse (ok : Bool) (status : Nat) (body : Option JVal)
  | transportFailure
deriving Repr

/-- `extractReplyText(data)`: `data?.chat_message_reply?.text` when it is a
string, else `""`. -/
def extractReplyText (data : JVal) : String :=
  match optChain2 data "chat_message_reply" "text" with
  | some (.str t) => t
  | _ => ""

/-! ## Request Builder helpers (send-time name resolution) -/

/-- `if (selectedSubjectId) { const s = subjects.find(...); if (s) body.subject = getSubjectName(s, "zh_HK"); }` -/
def chatSubjectField (s : ChatState) : Option String :=
  if jsTruthyIdOpt s.selectedSubjectId then
    match findSubject s with
    | some subj => some (getSubjectName subj "zh_HK")
    | none => none
  else none

/-- Same for the grade level. -/
def chatGradeField (s : ChatState) : Option String :=
  if jsTruthyIdOpt s.selectedGradeLevelId then
    match findGradeLevel s with
    | some g => some (getGradeLevelName g "zh_HK")
    | none => none
  else none

/-- JS `messages.slice(-10)`. -/
def lastN (n : Nat) (l : List α) : List α :=
  l.drop (l.length - n)

/-- The `conversation_history` construction in `sendMessage` (lines
895–901), applied to the `messages` array the closure captured. -/
def buildConversationHistory (msgs : List Message) : List HistEntry :=
  ((lastN 10 msgs).map (fun m =>
      { role := if m.role == "bot" then "assistant" else m.role, content := m.text }))
    |>.filter (fun e => 0 < (jsTrim e.content).length)

/-! ## Action Interpreter (the `for (const action of data.actions)` loop) -/

/-- The loop's match condition:
`action.action_type === "show_pattern" && action.payload?.patterns` (truthy). -/
def actionMatches (a : JVal) : Bool :=
  (match getField a "action_type" with
   | some (.str t) => t == "show_pattern"
   | _ => false)
  &&
  (match optChain2 a "payload" "patterns" with
   | some v => jsTruthy v
   | none => false)

/-- The directive built from a matching action, with `presentation` and
`context` defaulted (`action.ui?.presentation || "popup"`,
`action.target?.context || "ILO"`). -/
def mkDirective (a : JVal) : Directive :=
  { patterns := (optChain2 a "payload" "patterns").getD .null
    presentation := jsOrDefault (optChain2 a "ui" "presentation") (.str "popup")
    context := jsOrDefault (optChain2 a "target" "context") (.str "ILO") }

/-- The scan loop itself: first match wins (`break`), later matches are
ignored, no match leaves `actionTemplates` untouched. -/
def scanLoop (s : ChatState) : List JVal → ChatState
  | [] => s
  | a :: rest =>
    if actionMatches a then { s with actionTemplates := some (mkDirective a) }
    else scanLoop s rest

/-- The `data?.actions && Array.isArray(data.actions)` guard followed by
the scan loop. -/
def applyActions (s : ChatState) (data : JVal) : ChatState :=
  match getField data "actions" with
  | some (.arr acts) => scanLoop s acts
  | _ => s

/-! ## Conversation Engine: chat flow (`sendMessage`, lines 842–948) -/

/-- `(messageText || inputValue)`. -/
def jsOrStrOpt (a : Option String) (b : String) : String :=
  match a with
  | some v => if v = "" then b else v
  | none => b

/-- The resolved, trimmed submission text. -/
def resolvedText (s : ChatState) (messageText : Option String) : String :=
  jsTrim (jsOrStrOpt messageText s.inputValue)

/-- `handleFileUploadAndAnalyze(userMessage)` up to issuing the multipart
request: clears the pending file immediately and irreversibly, records the
user text (if any) and a synthesized file-reference message, and enters the
busy flags. -/
def handleFileUploadAndAnalyze (s : ChatState) (userMessage : String) :
    ChatState × Option OutRequest :=
  match s.uploadedFile with
  | none => (s, none)
  | some fileName =>
    if s.isUploading ∨ s.isAnalyzing then (s, none)
    else
      let s1 := { s with uploadedFile := none, isUploading := true, isAnalyzing := true }
      let s2 := if jsTrim userMessage = "" then s1 else addMessage s1 "user" userMessage none none
      let s3 := addMessage s2 "user" ("📎 上傳文件：" ++ fileName) none none
      let s4 := { s3 with inputValue := "", isTyping := true }
      (s4, some (.analyze
        { fileName := fileName
          message := if jsTrim userMessage = "" then none else some userMessage
          subject := chatSubjectField s
          grade := chatGradeField s
          topic := if jsTrim s.topic = "" then none else some (jsTrim s.topic) }))

/-- `sendMessage(messageText, isSuggestedQuestion)` up to issuing the
request: the busy/empty guard, the file route, the user-message append, and
the request-body construction.  Note that the body's
`conversation_history` reads the `messages` array captured by the closure,
i.e. the history *before* the user message was appended. -/
def sendMessageStart (s : ChatState) (messageText : Option String)
    (isSuggestedQuestion : Bool) : ChatState × Option OutRequest :=
  let text := resolvedText s messageText
  let hasFile := s.uploadedFile.isSome
  if (text = "" ∧ hasFile = false) ∨ s.isTyping then (s, none)
  else if hasFile then handleFileUploadAndAnalyze s text
  else
    let s1 := addMessage s "user" text none none
    let s2 := { s1 with inputValue := "", isTyping := true }
    (s2, some (.chat
      { message := text
        is_suggested_question := isSuggestedQuestion
        subject := chatSubjectField s
        grade := chatGradeField s
        topic := if jsTrim s.topic = "" then none else some (jsTrim s.topic)
        conversation_history := buildConversationHistory s.messages }))

/-- The non-2xx reply text:
`extractReplyText(data) || data?.error || "伺服器錯誤：HTTP <status>"`
(a non-string `error` value is displayed JS-style). -/
def chatErrText (data : JVal) (status : Nat) : String :=
  if extractReplyText data = "" then
    match getField data "error" with
    | some v => if jsTruthy v then jsDisplay v else s!"伺服器錯誤：HTTP {status}"
    | none => s!"伺服器錯誤：HTTP {status}"
  else extractReplyText data

/-- The response half of `sendMessage`: `data = await resp.json().catch(() => ({}))`,
the non-2xx recovered-failure path, the success path with its
suggested-questions extraction and action scan, the transport-failure
`catch`, and the `finally` that leaves `Busy` on every path. -/
def sendMessageFinish (s : ChatState) (r : NetResponse) : ChatState :=
  match r with
  | .transportFailure =>
    { addBot s "連線失敗：請稍後再試，或確認伺服器已啟動。" with isTyping := false }
  | .httpResponse ok status body =>
    let data := body.getD (.obj [])
    if ok then
      let replyText := extractReplyText data
      let sq :=
        match getField data "suggested_questions" with
        | some v => if jsTruthy v then some v else none
        | none => none
      let s1 := addMessage s "bot"
        (if replyText = "" then "（沒有收到回覆內容）" else replyText) none sq
      { applyActions s1 data with isTyping := false }
    else
      { addBot s (chatErrText data status) with isTyping := false }

/-! ## Conversation Engine: generation flow (`generateILOs`, lines 729–840) -/

/-- The request body built once validation has passed. -/
def buildGenRequest (s : ChatState) : GenRequest :=
  { topic := jsTrim s.topic
    subject :=
      match (if jsTruthyIdOpt s.selectedSubjectId then findSubject s else none) with
      | some subj => getSubjectName subj "zh_HK"
      | none => ""
    grade :=
      match (if jsTruthyIdOpt s.selectedGradeLevelId then findGradeLevel s else none) with
      | some g => getGradeLevelName g "zh_HK"
      | none => ""
    category :=
      match findCategory s with
      | some cat => cat.name
      | none => ""
    bloom_level :=
      match (if jsTruthyIdOpt s.selectedBloomLevelId then findBloomLevel s else none) with
      | some lvl => getBloomLevelName lvl "zh_HK"
      | none => ""
    action_verb :=
      match s.selectedVerbId with
      | some v =>
        if jsTruthyIdOpt s.selectedVerbId then
          match s.availableVerbs.find? (fun e => e.id == v) with
          | some verb => getVerbName verb "zh_HK"
          | none => ""
        else ""
      | none => ""
    disciplinary_practice := "General Inquiry" }

/-- `generateILOs()` up to issuing the request: the re-entry guard, the
five sequential validation checks (each appending exactly one bot message
and returning), and entry into the generating-busy flag. -/
def generateILOsStart (s : ChatState) : ChatState × Option OutRequest :=
  if s.isGeneratingILOs then (s, none)
  else if jsTrim s.topic = "" then (addBot s "請先輸入課題。", none)
  else if jsTruthyIdOpt s.selectedCategoryId = false then
    (addBot s "請先選擇 ILO 種類（Category）。", none)
  else
    match findCategory s with
    | none => (addBot s "請先選擇有效的 ILO 種類。", none)
    | some cat =>
      if cat.show_bloom_taxonomy ∧ cat.require_bloom_taxonomy
          ∧ jsTruthyIdOpt s.selectedBloomLevelId = false then
        (addBot s "此種類需要選擇 Bloom Taxonomy Level。", none)
      else if cat.show_bloom_taxonomy ∧ jsTruthyIdOpt s.selectedBloomLevelId
          ∧ jsTruthyIdOpt s.selectedVerbId = false then
        (addBot s "請先選擇動詞（Verb）。", none)
      else
        ({ s with isGeneratingILOs := true }, some (.gen (buildGenRequest s)))

/-- `ilo.statement || ilo.text || ilo.content || ""`. -/
def resolveStatementField (ilo : JVal) : JVal :=
  jsOrDefault (getField ilo "statement")
    (jsOrDefault (getField ilo "text")
      (jsOrDefault (getField ilo "content") (.str "")))

/-- The wrapped-object branch:
`data.ilos || data.ILOs || data.data || data.results || data.statements || []`,
then, when that is an array, per-element normalization that accepts bare
strings, and the empty-statement filter. -/
def wrappedBranch (data : JVal) : Option (List Ilo) :=
  let ilosList :=
    jsOrDefault (getField data "ilos")
      (jsOrDefault (getField data "ILOs")
        (jsOrDefault (getField data "data")
          (jsOrDefault (getField data "results")
            (jsOrDefault (getField data "statements") (.arr [])))))
  match ilosList with
  | .arr ys =>
    some ((ys.map (fun ilo =>
        match ilo with
        | .str st => Ilo.mk (.str st)
        | _ => Ilo.mk (resolveStatementField ilo)))
      |>.filter (fun i => jsTruthy i.statement))
  | _ => none

/-- The `ilosArray` computed by the success handler (lines 800–826):
`null` is `none`.  A non-empty bare array takes the first branch, whose
per-element normalization does NOT special-case strings; every other array
or object goes through the wrapped-object branch (in JS an array is an
object whose `ilos`/… lookups are `undefined`); primitives leave
`ilosArray` null. -/
def ilosArrayCode (data : JVal) : Option (List Ilo) :=
  match data with
  | .arr xs =>
    if 0 < xs.length then
      some ((xs.map (fun ilo => Ilo.mk (resolveStatementField ilo)))
        |>.filter (fun i => jsTruthy i.statement))
    else wrappedBranch (.arr xs)
  | .obj fs => wrappedBranch (.obj fs)
  | _ => none

/-- The count-bearing confirmation text. -/
def genCountMsg (n : Nat) : String := s!"已生成 {n} 個預期學習成果："

/-- The diagnostic text for an empty or unparseable result, with the
truncated raw-response excerpt `JSON.stringify(data).substring(0, 200)`. -/
def genDiagMsg (data : JVal) : String :=
  "生成完成，但未收到有效的學習成果。回應：" ++ (jsonStringify data).take 200

/-- The 2xx display step of `generateILOs` (lines 800–833). -/
def genSuccessState (s : ChatState) (data : JVal) : ChatState :=
  match ilosArrayCode data with
  | some l =>
    if 0 < l.length then addMessage s "bot" (genCountMsg l.length) (some l) none
    else addBot s (genDiagMsg data)
  | none => addBot s (genDiagMsg data)

/-- The response half of `generateILOs`: JSON-parse fallback
`{error: "無法解析伺服器回應"}`, the non-2xx失敗 message, the 2xx display
step, the transport-failure `catch`, and the `finally` clearing the
generating-busy flag on every path. -/
def generateILOsFinish (s : ChatState) (r : NetResponse) : ChatState :=
  match r with
  | .transportFailure =>
    { addBot s "生成失敗：請稍後再試，或確認伺服器已啟動。" with isGeneratingILOs := false }
  | .httpResponse ok status body =>
    let data := body.getD (.obj [("error", .str "無法解析伺服器回應")])
    if ok then
      { genSuccessState s data with isGeneratingILOs := false }
    else
      let errorMsg :=
        jsDisplay (jsOrDefault (getField data "error")
          (jsOrDefault (getField data "details") (.str s!"HTTP {status}")))
      { addBot s ("生成失敗：" ++ errorMsg) with isGeneratingILOs := false }

/-! ## The claims' own vocabulary -/

/-- The spec's generation-readiness predicate, as a boolean:
`topic.trim() != "" AND categoryId is set AND (show_bloom == false OR
require_bloom == false OR (bloomLevelId set AND verbId set))`.  The third
conjunct speaks of "the category", so it is read through `findCategory`;
an unresolvable id leaves it vacuously true (claim C10 covers that gap). -/
def readyGate (s : ChatState) : Bool :=
  !(jsTrim s.topic == "") && jsTruthyIdOpt s.selectedCategoryId &&
    (match findCategory s with
     | some cat =>
       !cat.show_bloom_taxonomy || !cat.require_bloom_taxonomy ||
         (jsTruthyIdOpt s.selectedBloomLevelId && jsTruthyIdOpt s.selectedVerbId)
     | none => true)

/-- The validation message the spec's priority order (1)–(4) picks for a
not-ready generation attempt, using the code's message strings. -/
def claimValidationMsg (s : ChatState) : String :=
  if jsTrim s.topic = "" then "請先輸入課題。"
  else if jsTruthyIdOpt s.selectedCategoryId = false then "請先選擇 ILO 種類（Category）。"
  else
    match findCategory s with
    | some cat =>
      if cat.show_bloom_taxonomy ∧ cat.require_bloom_taxonomy
          ∧ jsTruthyIdOpt s.selectedBloomLevelId = false then
        "此種類需要選擇 Bloom Taxonomy Level。"
      else "請先選擇動詞（Verb）。"
    | none => ""

/-- The `conversation_history` the spec words describe, applied to some
message list: the last-10 window (oldest first), mapped to
`{role, content}` with `bot ↦ assistant`, dropping empty/whitespace-only
content.  Claim C5 applies this to the history INCLUDING the just-appended
user message. -/
def specHistory (msgs : List Message) : List HistEntry :=
  ((msgs.reverse.take 10).reverse).filterMap (fun m =>
    if jsTrim m.text = "" then none
    else some { role := if m.role = "bot" then "assistant" else m.role, content := m.text })

/-- The chat request body as the (amended) spec words it, with
`conversation_history` drawn from the pre-append history. -/
def specChatRequest (s : ChatState) (text : String) (isSuggested : Bool) : ChatRequest :=
  { message := text
    is_suggested_question := isSuggested
    subject := chatSubjectField s
    grade := chatGradeField s
    topic := if jsTrim s.topic = "" then none else some (jsTrim s.topic)
    conversation_history := specHistory s.messages }

/-- The wrapped-object list as the spec words it: the value under the first
of `ilos`/`ILOs`/`data`/`results`/`statements` that is present and truthy,
else an empty list. -/
def specKeyList (data : JVal) : JVal :=
  match ["ilos", "ILOs", "data", "results", "statements"].findSome?
      (fun k => (getField data k).filter jsTruthy) with
  | some v => v
  | none => .arr []

/-- The normalization claim C4 states: strings are accepted in BOTH the
bare-array and the wrapped-object shapes. -/
def normalizeIlosClaim (data : JVal) : Option (List Ilo) :=
  let normElem : JVal → Option Ilo := fun ilo =>
    match ilo with
    | .str st => if st = "" then none else some (Ilo.mk (.str st))
    | _ =>
      let st := resolveStatementField ilo
      if jsTruthy st then some (Ilo.mk st) else none
  match data with
  | .arr [] => some []
  | .arr (x :: xs) => some ((x :: xs).filterMap normElem)
  | .obj _ =>
    match specKeyList data with
    | .arr ys => some (ys.filterMap normElem)
    | _ => none
  | _ => none

/-- The amended normalization: in a bare (non-empty) array every element is
read through `statement|text|content` only — a bare string resolves to the
empty statement and is dropped; string elements are accepted only inside a
wrapped-object list. -/
def normalizeIlosAmended (data : JVal) : Option (List Ilo) :=
  match data with
  | .arr [] => some []
  | .arr (x :: xs) =>
    some ((x :: xs).filterMap (fun ilo =>
      let st := resolveStatementField ilo
      if jsTruthy st then some (Ilo.mk st) else none))
  | .obj _ =>
    match specKeyList data with
    | .arr ys =>
      some (ys.filterMap (fun ilo =>
        match ilo with
        | .str st => if st = "" then none else some (Ilo.mk (.str st))
        | _ =>
          let st := resolveStatementField ilo
          if jsTruthy st then some (Ilo.mk st) else none))
    | _ => none
  | _ => none

/-- The bot message the amended generation claim predicts for a 2xx
response: the count-bearing confirmation carrying the normalized list when
it is non-empty, else the diagnostic with the truncated raw excerpt. -/
def specGenSuccessMsg (data : JVal) : Message :=
  match normalizeIlosAmended data with
  | some (i :: l) =>
    { role := "bot", text := genCountMsg (i :: l).length, ilos := some (i :: l),
      suggestedQuestions := none }
  | _ =>
    { role := "bot", text := genDiagMsg data, ilos := none, suggestedQuestions := none }

/-! ## Concrete fixtures -/

/-- The initial component state. -/
def emptyState : ChatState :=
  { messages := [], isTyping := false, isGeneratingILOs := false,
    isUploading := false, isAnalyzing := false, inputValue := "",
    uploadedFile := none, topic := "", selectedSubjectId := none,
    selectedGradeLevelId := none, selectedCategoryId := none,
    selectedBloomLevelId := none, selectedVerbId := none,
    availableVerbs := [], subjects := [], gradeLevels := [],
    iloCategories := [], bloomLevels := [], actionTemplates := none }

/-- A category that does not show the Bloom taxonomy. -/
def catNoBloom : Category :=
  { id := 5, name := "知識", show_bloom_taxonomy := false, require_bloom_taxonomy := false }

/-- A category that shows and requires the Bloom taxonomy. -/
def catBloom : Category :=
  { id := 7, name := "技能", show_bloom_taxonomy := true, require_bloom_taxonomy := true }

/-- Two verbs and a Bloom level owning them. -/
def verbEx1 : Entity := { id := 11, name := some "運用", statement := none, translation := none }

def verbEx2 : Entity := { id := 12, name := some "示範", statement := none, translation := none }

def bloomEx : BloomLevel :=
  { id := 3, name := some "應用", translation := none,
    bloom_taxonomy_verbs := some [verbEx1, verbEx2] }

/-- A Bloom level with an empty verb list. -/
def bloomExEmpty : BloomLevel :=
  { id := 4, name := some "評鑑", translation := none, bloom_taxonomy_verbs := some [] }

/-- A state that passes every generation validation. -/
def stGenReady : ChatState :=
  { emptyState with topic := "光合作用", selectedCategoryId := some 5,
                    iloCategories := [catNoBloom, catBloom], inputValue := "你好" }

/-- The state right after `generateILOs` has issued its request — an
ILO generation is in flight. -/
def stGenBusy : ChatState := (generateILOsStart stGenReady).1

/-- A state with one bot message in the history and text typed into the
input box. -/
def stChat : ChatState :=
  { emptyState with
      messages := [{ role := "bot", text := "hi there", ilos := none, suggestedQuestions := none }],
      inputValue := "hello" }

/-- Generation attempted with a blank topic but a category selected. -/
def stNotReady : ChatState :=
  { emptyState with selectedCategoryId := some 5, iloCategories := [catNoBloom, catBloom] }

/-- Generation attempted with a category id that resolves to no loaded
category. -/
def stInvalidCat : ChatState :=
  { emptyState with topic := "光合作用", selectedCategoryId := some 99,
                    iloCategories := [catNoBloom, catBloom] }

/-- A bare top-level string array returned by the generation endpoint. -/
def cexGenData : JVal := .arr [.str "Students will analyze X"]

/-- The spec's chat-error fixture: a 500 body `{error:"boom"}`. -/
def boomBody : JVal := .obj [("error", .str "boom")]

/-- The spec's action-scan fixture:
`[{action_type:"noop"}, {action_type:"show_pattern", payload:{patterns:[{id:1}]}}, {action_type:"show_pattern", payload:{patterns:[{id:2}]}}]`. -/
def actionNoop : JVal := .obj [("action_type", .str "noop")]

def actionShow1 : JVal :=
  .obj [("action_type", .str "show_pattern"),
        ("payload", .obj [("patterns", .arr [.obj [("id", .num 1)]])])]

def actionShow2 : JVal :=
  .obj [("action_type", .str "show_pattern"),
        ("payload", .obj [("patterns", .arr [.obj [("id", .num 2)]])])]

def actionsFixture : List JVal := [actionNoop, actionShow1, actionShow2]

/-- A chat success body carrying the action fixture. -/
def chatBodyWithActions : JVal :=
  .obj [("chat_message_reply", .obj [("text", .str "hi")]),
        ("actions", .arr actionsFixture)]

/-- The `conversation_history` carried by an issued chat request (empty for
anything else). -/
def chatReqHistOf : Option OutRequest → List HistEntry
  | some (.chat r) => r.conversation_history
  | _ => []

/-- A state with a full cascade selection in place: category 7 (Bloom
shown and required), Bloom level 3 with verbs 11 and 12, verb 11. -/
def stCascade : ChatState :=
  { emptyState with
      iloCategories := [catNoBloom, catBloom],
      bloomLevels := [bloomEx, bloomExEmpty],
      selectedCategoryId := some 7,
      selectedBloomLevelId := some 3,
      selectedVerbId := some 11,
      availableVerbs := [verbEx1, verbEx2] }

/-! ## Helper lemmas -/

theorem find?_eq_head_filter (p : α → Bool) (l : List α) :
    l.find? p = (l.filter p).head? := by
  induction l with
  | nil => rfl
  | cons a l ih =>
    cases h : p a
    · rw [List.find?_cons_of_neg _ (by simp [h]), List.filter_cons, h, ih]; simp
    · rw [List.find?_cons_of_pos _ h, List.filter_cons, h]; simp

theorem forLocales_congr {f g : String → Option String} (h : ∀ lc, f lc = g lc)
    (chain : List String) : forLocales f chain = forLocales g chain := by
  induction chain with
  | nil => rfl
  | cons lc rest ih => simp only [forLocales, h lc]; cases g lc <;> simp [ih]

theorem localeNameHit_eq (ts : List Translation) (lc : String) :
    localeNameHit ts lc = (amendedPickFirst ts lc).bind (fun t => truthyStr t.name) := by
  unfold localeNameHit amendedPickFirst
  rw [find?_eq_head_filter]
  cases (ts.filter (fun t => t.lang_code == lc)).head? <;> rfl

theorem localeStmtHit_eq (ts : List Translation) (lc : String) :
    localeStmtHit ts lc = (amendedPickFirst ts lc).bind (fun t => truthyStr t.statement) := by
  unfold localeStmtHit amendedPickFirst
  rw [find?_eq_head_filter]
  cases (ts.filter (fun t => t.lang_code == lc)).head? <;> rfl

theorem insertDesc_length (t : Translation) (l : List Translation) :
    (insertDesc t l).length = l.length + 1 := by
  induction l with
  | nil => rfl
  | cons h r ih => by_cases hc : updatedKey t ≤ updatedKey h <;> simp [insertDesc, hc, ih]

theorem sortDesc_go_length (l acc : List Translation) :
    (l.foldl (fun a t => insertDesc t a) acc).length = acc.length + l.length := by
  induction l generalizing acc with
  | nil => simp
  | cons h r ih => simp [List.foldl, ih, insertDesc_length]; omega

theorem sortDesc_length (l : List Translation) : (sortDesc l).length = l.length := by
  unfold sortDesc; simpa using sortDesc_go_length l []

theorem subjectLocaleHit_eq (ts : List Translation) (lc : String) :
    subjectLocaleHit ts lc = (amendedPickSubject ts lc).bind (fun t => truthyStr t.name) := by
  unfold subjectLocaleHit amendedPickSubject
  cases hf : ts.filter (fun t => t.lang_code == lc) with
  | nil => rfl
  | cons m0 rest =>
    simp only [Option.some_bind]
    by_cases hc : 0 < rest.length ∧ m0.updated_at.isSome
    · simp only [if_pos hc]
      cases hs : sortDesc (m0 :: rest) with
      | nil =>
        exfalso
        have hlen := sortDesc_length (m0 :: rest)
        rw [hs] at hlen
        simp at hlen
      | cons f fs => simp [List.headD]
    · simp [if_neg hc]

theorem getGradeLevelName_eq_amended (e : Entity) (loc : String) :
    getGradeLevelName e loc =
      resolveAmended amendedPickFirst (fun t => t.name) e.name e.translation loc := by
  unfold getGradeLevelName resolveAmended
  cases e.translation with
  | none => rfl
  | some ts =>
    dsimp only
    rw [forLocales_congr (localeNameHit_eq ts)]

theorem getVerbName_eq_amended (e : Entity) (loc : String) :
    getVerbName e loc =
      resolveAmended amendedPickFirst (fun t => t.name) e.name e.translation loc := by
  unfold getVerbName resolveAmended
  cases e.translation with
  | none => rfl
  | some ts =>
    dsimp only
    rw [forLocales_congr (localeNameHit_eq ts)]

theorem getBloomLevelName_eq_amended (lvl : BloomLevel) (loc : String) :
    getBloomLevelName lvl loc =
      resolveAmended amendedPickFirst (fun t => t.name) lvl.name lvl.translation loc := by
  unfold getBloomLevelName resolveAmended
  cases lvl.translation with
  | none => rfl
  | some ts =>
    dsimp only
    rw [forLocales_congr (localeNameHit_eq ts)]

theorem getPatternStatement_eq_amended (e : Entity) (loc : String) :
    getPatternStatement e loc =
      resolveAmended amendedPickFirst (fun t => t.statement) e.statement e.translation loc := by
  unfold getPatternStatement resolveAmended
  cases e.translation with
  | none => rfl
  | some ts =>
    dsimp only
    rw [forLocales_congr (localeStmtHit_eq ts)]

theorem getSubjectName_eq_amended (e : Entity) (loc : String) :
    getSubjectName e loc =
      resolveAmended amendedPickSubject (fun t => t.name) e.name e.translation loc := by
  unfold getSubjectName resolveAmended
  cases e.translation with
  | none => rfl
  | some ts =>
    dsimp only
    rw [forLocales_congr (subjectLocaleHit_eq ts)]

/-! ## Claim C1 -/

/-- C1 (counterexample): the spec claims every translatable entity kind
resolves display names by the collect-all / latest-`updated_at` algorithm;
but `getGradeLevelName` takes the FIRST `zh_HK` match ("A"), while the
claimed algorithm picks the latest-updated one ("B"). -/
theorem C1_counterexample :
    getGradeLevelName gradeDup "zh_HK" ≠
      resolveDisplayNameClaim (fun t => t.name) gradeDup.name gradeDup.translation "zh_HK" := by
  decide

/-- C1 (amended): `getGradeLevelName`, `getVerbName`, `getBloomLevelName`
and `getPatternStatement` resolve each locale by the FIRST matching
translation (ignoring `updated_at`), while only `getSubjectName` collects
all matches and applies the latest-`updated_at` tie-break — and then only
when the first match itself carries an `updated_at`; all five share the
four-tier fallback (locale chain, first translation, own field, `""`). -/
theorem C1_amended (g v pat subj : Entity) (lvl : BloomLevel) (loc : String) :
    getGradeLevelName g loc =
      resolveAmended amendedPickFirst (fun t => t.name) g.name g.translation loc ∧
    getVerbName v loc =
      resolveAmended amendedPickFirst (fun t => t.name) v.name v.translation loc ∧
    getBloomLevelName lvl loc =
      resolveAmended amendedPickFirst (fun t => t.name) lvl.name lvl.translation loc ∧
    getPatternStatement pat loc =
      resolveAmended amendedPickFirst (fun t => t.statement) pat.statement pat.translation loc ∧
    getSubjectName subj loc =
      resolveAmended amendedPickSubject (fun t => t.name) subj.name subj.translation loc :=
  ⟨getGradeLevelName_eq_amended g loc, getVerbName_eq_amended v loc,
   getBloomLevelName_eq_amended lvl loc, getPatternStatement_eq_amended pat loc,
   getSubjectName_eq_amended subj loc⟩

/-! ## Claim C2 -/

/-- C2 (counterexample): the spec claims a single busy flag shared by the
chat, analyze and generation flows, with any invocation made while one is
in flight dropped with no state change.  In fact the flags are separate:
starting from a state in which a generation request has just been issued
(`isGeneratingILOs = true`), a chat submission is NOT dropped — it appends
a user message and issues a second request — and conversely a generation
invoked while a chat is in flight (`isTyping = true`) also issues its
request. -/
theorem C2_counterexample :
    stGenBusy.isGeneratingILOs = true ∧
    (sendMessageStart stGenBusy none false).2.isSome = true ∧
    (sendMessageStart stGenBusy none false).1.messages.length
      = stGenBusy.messages.length + 1 ∧
    (generateILOsStart { stGenReady with isTyping := true }).2.isSome = true := by
  refine ⟨rfl, rfl, rfl, ?_⟩
  decide

/-- C2 (amended): each flow is only guarded against itself and its
flag-mates: `sendMessage` (covering both the chat and the document-analysis
entry) is dropped with no state change and no request while `isTyping` is
set, and `generateILOs` is dropped likewise while `isGeneratingILOs` is
set; the two flags are independent, so chat/analyze and generation do not
exclude each other. -/
theorem C2_amended (s : ChatState) (mt : Option String) (sug : Bool) :
    (s.isTyping = true → sendMessageStart s mt sug = (s, none)) ∧
    (s.isGeneratingILOs = true → generateILOsStart s = (s, none)) := by
  constructor
  · intro h
    simp [sendMessageStart, h]
  · intro h
    simp [generateILOsStart, h]

/-- C2 (witness for the amended theorem): both drop guards observed on
concrete busy states. -/
theorem C2_amended_witness :
    sendMessageStart { emptyState with isTyping := true } (some "hi") false
      = ({ emptyState with isTyping := true }, none) ∧
    generateILOsStart { emptyState with isGeneratingILOs := true }
      = ({ emptyState with isGeneratingILOs := true }, none) :=
  ⟨(C2_amended { emptyState with isTyping := true } (some "hi") false).1 rfl,
   (C2_amended { emptyState with isGeneratingILOs := true } none false).2 rfl⟩

/-! ## Claim C3 -/

/-- C3: whenever a generation attempt is made while the spec's readiness
predicate is false (and the flow is not already generating, and the
selected category id, when set, resolves against the loaded category list —
the unresolvable case is claim C10's), `generateILOs` appends exactly one
bot validation message, the one the priority order (1) missing topic,
(2) missing category, (3) required Bloom level missing, (4) verb missing
selects, and issues no request. -/
theorem C3_validation (s : ChatState)
    (hbusy : s.isGeneratingILOs = false)
    (hnr : readyGate s = false)
    (hres : jsTruthyIdOpt s.selectedCategoryId = true → (findCategory s).isSome = true) :
    generateILOsStart s = (addBot s (claimValidationMsg s), none) := by
  unfold generateILOsStart claimValidationMsg
  rw [hbusy]
  simp only [Bool.false_eq_true, if_false]
  by_cases ht : jsTrim s.topic = ""
  · simp [ht]
  · simp only [if_neg ht]
    by_cases hc : jsTruthyIdOpt s.selectedCategoryId = true
    · have hsome := hres hc
      obtain ⟨cat, hcat⟩ := Option.isSome_iff_exists.mp hsome
      rw [hc, hcat]
      simp only [Bool.true_eq_false, if_false]
      unfold readyGate at hnr
      rw [hcat] at hnr
      have htT : (!(jsTrim s.topic == "")) = true := by
        simp [ht]
      rw [htT, hc] at hnr
      simp only [Bool.true_and] at hnr
      rcases Bool.or_eq_false_iff.mp hnr with ⟨hnr1, hnr2⟩
      rcases Bool.or_eq_false_iff.mp hnr1 with ⟨hshow, hreq⟩
      have hshow' : cat.show_bloom_taxonomy = true := by
        cases h : cat.show_bloom_taxonomy <;> simp [h] at hshow ⊢
      have hreq' : cat.require_bloom_taxonomy = true := by
        cases h : cat.require_bloom_taxonomy <;> simp [h] at hreq ⊢
      by_cases hbl : jsTruthyIdOpt s.selectedBloomLevelId = true
      · have hverb : jsTruthyIdOpt s.selectedVerbId = false := by
          rw [hbl] at hnr2
          simpa using hnr2
        rw [if_neg (by simp [hbl]), if_pos ⟨hshow', hbl, hverb⟩,
            if_neg (by simp [hbl])]
      · have hbl' : jsTruthyIdOpt s.selectedBloomLevelId = false :=
          Bool.eq_false_iff.mpr hbl
        rw [if_pos ⟨hshow', hreq', hbl'⟩, if_pos ⟨hshow', hreq', hbl'⟩]
    · have hc' : jsTruthyIdOpt s.selectedCategoryId = false :=
        Bool.eq_false_iff.mpr hc
      simp [hc']

/-- C3 (witness): generation attempted with a blank topic and a set,
resolvable category reports exactly the missing-topic message and sends
nothing. -/
theorem C3_witness :
    generateILOsStart stNotReady = (addBot stNotReady "請先輸入課題。", none) :=
  C3_validation stNotReady rfl rfl (fun _ => rfl)

/-! ## Claim C10 -/

/-- C10: when the topic is non-blank and a (truthy) category id is set but
no loaded category carries that id, `generateILOs` appends the fifth
validation message 「請先選擇有效的 ILO 種類。」 — absent from the spec's
four-message list — and returns without issuing a request. -/
theorem C10_invalid_category (s : ChatState)
    (hbusy : s.isGeneratingILOs = false)
    (ht : jsTrim s.topic ≠ "")
    (hc : jsTruthyIdOpt s.selectedCategoryId = true)
    (hfind : findCategory s = none) :
    generateILOsStart s = (addBot s "請先選擇有效的 ILO 種類。", none) := by
  unfold generateILOsStart
  rw [hbusy, hc, hfind]
  simp [ht]

/-- C10 (witness): category id 99 set while only ids 5 and 7 are loaded. -/
theorem C10_witness :
    generateILOsStart stInvalidCat
      = (addBot stInvalidCat "請先選擇有效的 ILO 種類。", none) :=
  C10_invalid_category stInvalidCat rfl (by decide) rfl rfl

/-! ## Claim C4 -/

theorem jsOrDefault_eq (o : Option JVal) (d : JVal) :
    jsOrDefault o d =
      match o.filter jsTruthy with
      | some v => v
      | none => d := by
  cases o with
  | none => rfl
  | some v =>
    by_cases h : jsTruthy v
    · simp [jsOrDefault, Option.filter, h]
    · simp [jsOrDefault, Option.filter, h]

theorem fiveKey_eq (data : JVal) :
    jsOrDefault (getField data "ilos")
      (jsOrDefault (getField data "ILOs")
        (jsOrDefault (getField data "data")
          (jsOrDefault (getField data "results")
            (jsOrDefault (getField data "statements") (.arr []))))) = specKeyList data := by
  unfold specKeyList
  simp only [List.findSome?_cons, List.findSome?_nil, jsOrDefault_eq]
  cases h1 : (getField data "ilos").filter jsTruthy
  · cases h2 : (getField data "ILOs").filter jsTruthy
    · cases h3 : (getField data "data").filter jsTruthy
      · cases h4 : (getField data "results").filter jsTruthy
        · cases h5 : (getField data "statements").filter jsTruthy <;> rfl
        · rfl
      · rfl
    · rfl
  · rfl

theorem map_filter_eq_filterMap (g : α → β) (p : β → Bool) (xs : List α) :
    (xs.map g).filter p
      = xs.filterMap (fun x => if p (g x) then some (g x) else none) := by
  induction xs with
  | nil => rfl
  | cons a l ih =>
    by_cases h : p (g a)
    · simp [List.filter_cons, List.filterMap_cons, h, ih]
    · simp [List.filter_cons, List.filterMap_cons, h, ih]

theorem ilosArrayCode_eq (data : JVal) :
    ilosArrayCode data = normalizeIlosAmended data := by
  cases data with
  | str s => rfl
  | num n => rfl
  | bool b => rfl
  | null => rfl
  | arr xs =>
    cases xs with
    | nil => rfl
    | cons x rest =>
      unfold ilosArrayCode normalizeIlosAmended
      dsimp only
      rw [if_pos (by simp)]
      rw [map_filter_eq_filterMap]
  | obj fs =>
    unfold ilosArrayCode wrappedBranch normalizeIlosAmended
    dsimp only
    rw [fiveKey_eq]
    cases hsk : specKeyList (.obj fs) with
    | arr ys =>
      dsimp only
      rw [map_filter_eq_filterMap]
      congr 1
      apply List.filterMap_congr
      intro x _
      cases x with
      | str st =>
        by_cases h : st = ""
        · simp [h, jsTruthy]
        · simp [h, jsTruthy]
      | num n => rfl
      | bool b => rfl
      | null => rfl
      | arr zs => rfl
      | obj gs => rfl
    | str s => rfl
    | num n => rfl
    | bool b => rfl
    | null => rfl
    | obj gs => rfl

set_option maxRecDepth 4000 in
/-- C4 (counterexample): the claim accepts "a string array" as one of the
three 2xx shapes, normalizing each string to a `{statement}`; but a BARE
top-level string array is normalized elementwise through
`statement|text|content`, so every string resolves to the empty statement
and is dropped, and the code appends the diagnostic message instead of the
count-bearing confirmation carrying one ILO. -/
theorem C4_counterexample :
    ilosArrayCode cexGenData = some [] ∧
    normalizeIlosClaim cexGenData = some [Ilo.mk (.str "Students will analyze X")] ∧
    (generateILOsFinish emptyState (.httpResponse true 200 (some cexGenData))).messages.map
        Message.text = [genDiagMsg cexGenData] ∧
    (generateILOsFinish emptyState (.httpResponse true 200 (some cexGenData))).messages.map
        Message.ilos = [none] ∧
    genDiagMsg cexGenData ≠ genCountMsg 1 := by
  refine ⟨rfl, rfl, rfl, rfl, ?_⟩
  decide

/-- C4 (amended): for every 2xx generation response, the parsed `ilosArray`
is exactly the amended normalization — `{statement|text|content}`-shaped
items in a bare array (bare strings resolve to empty and are dropped),
strings accepted only inside a list wrapped under
`ilos`/`ILOs`/`data`/`results`/`statements` of an object — and the handler
appends exactly one bot message: the count-bearing confirmation carrying
the non-empty normalized list, or else the diagnostic with the truncated
raw-response excerpt; the busy flag is cleared either way. -/
theorem C4_amended (s : ChatState) (status : Nat) (data : JVal) :
    ilosArrayCode data = normalizeIlosAmended data ∧
    generateILOsFinish s (.httpResponse true status (some data)) =
      { s with messages := s.messages ++ [specGenSuccessMsg data],
               isGeneratingILOs := false } := by
  refine ⟨ilosArrayCode_eq data, ?_⟩
  show { genSuccessState s data with isGeneratingILOs := false } = _
  unfold genSuccessState specGenSuccessMsg
  rw [ilosArrayCode_eq data]
  cases hn : normalizeIlosAmended data with
  | none => rfl
  | some l =>
    cases l with
    | nil => rfl
    | cons i rest =>
      simp [addMessage]

/-! ## Claim C5 -/

theorem lastN_eq_reverse_take (n : Nat) (l : List α) :
    lastN n l = (l.reverse.take n).reverse := by
  show l.rtake n = _
  rw [List.rtake_eq_reverse_take_reverse]

theorem buildConversationHistory_eq (msgs : List Message) :
    buildConversationHistory msgs = specHistory msgs := by
  unfold buildConversationHistory specHistory
  rw [lastN_eq_reverse_take, map_filter_eq_filterMap]
  apply List.filterMap_congr
  intro m _
  by_cases h : jsTrim m.text = ""
  · simp [h]
  · simp only [h, if_false]
    have hlen : 0 < (jsTrim m.text).length := by
      cases hh : jsTrim m.text with
      | mk cs =>
        cases cs with
        | nil => exact absurd hh h
        | cons c cs => simp [String.length, hh]
    rw [if_pos (by simpa using hlen)]
    by_cases hr : m.role = "bot"
    · simp [hr]
    · simp [hr]

/-- C5 (counterexample): the claim says `conversation_history` is the last
10 messages INCLUDING the just-appended user message; but `sendMessage`
reads the `messages` array its closure captured before the append, so the
just-typed "hello" is missing from the history it sends. -/
theorem C5_counterexample :
    chatReqHistOf (sendMessageStart stChat none false).2
      = [{ role := "assistant", content := "hi there" }] ∧
    specHistory (sendMessageStart stChat none false).1.messages
      = [{ role := "assistant", content := "hi there" },
         { role := "user", content := "hello" }] ∧
    chatReqHistOf (sendMessageStart stChat none false).2
      ≠ specHistory (sendMessageStart stChat none false).1.messages := by
  refine ⟨rfl, rfl, ?_⟩
  decide

/-- C5 (amended): a non-busy, fileless submission with non-blank resolved
text appends one user message, clears the input, enters `Busy`, and issues
exactly the claimed request body — trimmed text, `is_suggested_question`
flag, resolved subject/grade names, trimmed topic — except that
`conversation_history` is the filtered last-10 window of the history as it
was BEFORE the user message was appended. -/
theorem C5_amended (s : ChatState) (mt : Option String) (sug : Bool)
    (hbusy : s.isTyping = false) (hfile : s.uploadedFile = none)
    (htext : resolvedText s mt ≠ "") :
    sendMessageStart s mt sug =
      ({ addMessage s "user" (resolvedText s mt) none none with
           inputValue := "", isTyping := true },
       some (.chat (specChatRequest s (resolvedText s mt) sug))) := by
  unfold sendMessageStart
  rw [hfile, buildConversationHistory_eq]
  simp only [Option.isSome_none, hbusy]
  rw [if_neg (by simp [htext])]
  rfl

/-- C5 (witness): the amended behaviour observed on the concrete
one-greeting state. -/
theorem C5_amended_witness :
    sendMessageStart stChat none false =
      ({ addMessage stChat "user" "hello" none none with
           inputValue := "", isTyping := true },
       some (.chat (specChatRequest stChat "hello" false))) :=
  C5_amended stChat none false rfl rfl (by decide)

/-! ## Claim C6 -/

/-- C6: the Selection Cascade transitions behave as specified.
`SetCategory(id)` sets `categoryId` and, when the resolved category's
`show_bloom_taxonomy` is false, clears `bloomLevelId`, `verbId` and
`availableVerbs` even if they were set under a different category;
`SetBloomLevel(null)` clears `availableVerbs` and `verbId`; and
`SetBloomLevel(id)` on a resolvable level replaces `availableVerbs` with
that level's verb list and auto-selects the first verb's id (clearing
`verbId` when the list is empty, via `head?`). -/
theorem C6_cascade (s : ChatState) :
    (∀ v cat, v ≠ 0 →
       s.iloCategories.find? (fun c => c.id == v) = some cat →
       cat.show_bloom_taxonomy = false →
       setCategory s (some v) =
         { s with selectedCategoryId := some v, selectedBloomLevelId := none,
                  selectedVerbId := none, availableVerbs := [] }) ∧
    (setBloomLevel s none =
       { s with selectedBloomLevelId := none, availableVerbs := [],
                selectedVerbId := none }) ∧
    (∀ v lvl vs, v ≠ 0 →
       s.bloomLevels.find? (fun l => l.id == v) = some lvl →
       lvl.bloom_taxonomy_verbs = some vs →
       setBloomLevel s (some v) =
         { s with selectedBloomLevelId := some v, availableVerbs := vs,
                  selectedVerbId := vs.head?.map (fun e => e.id) }) := by
  refine ⟨?_, ?_, ?_⟩
  · intro v cat hv hfind hshow
    unfold setCategory categoryCascade findCategory
    simp [jsTruthyIdOpt, hv, hfind, hshow]
  · unfold setBloomLevel bloomCascade
    simp [jsTruthyIdOpt]
  · intro v lvl vs hv hfind hverbs
    unfold setBloomLevel bloomCascade findBloomLevel
    simp [jsTruthyIdOpt, hv, hfind, hverbs]

/-- C6 (witness): the three transitions observed on the concrete cascade
state (category 5 hides Bloom, level 3 owns verbs 11 and 12). -/
theorem C6_witness :
    setCategory stCascade (some 5) =
      { stCascade with selectedCategoryId := some 5, selectedBloomLevelId := none,
                       selectedVerbId := none, availableVerbs := [] } ∧
    setBloomLevel stCascade none =
      { stCascade with selectedBloomLevelId := none, availableVerbs := [],
                       selectedVerbId := none } ∧
    setBloomLevel stCascade (some 3) =
      { stCascade with selectedBloomLevelId := some 3,
                       availableVerbs := [verbEx1, verbEx2],
                       selectedVerbId := some 11 } :=
  ⟨(C6_cascade stCascade).1 5 catNoBloom (by decide) rfl rfl,
   (C6_cascade stCascade).2.1,
   (C6_cascade stCascade).2.2 3 bloomEx [verbEx1, verbEx2] (by decide) rfl rfl⟩

/-! ## Claim C7 -/

/-- C7: the invariant "`verbId` references an entry currently in
`availableVerbs` or is unset" is preserved by every cascade transition.
`SetVerb` is direct assignment with no validation, so its preservation
holds for the ids the verb select can actually produce: `null` or the id
of one of the rendered `availableVerbs` options. -/
theorem C7_verb_invariant (s : ChatState) (hinv : verbInvariant s) :
    (∀ t, verbInvariant (setTopic s t)) ∧
    (∀ v, verbInvariant (setSubject s v)) ∧
    (∀ v, verbInvariant (setGrade s v)) ∧
    (∀ v, verbInvariant (setCategory s v)) ∧
    (∀ v, verbInvariant (setBloomLevel s v)) ∧
    (∀ v, (v = none ∨ ∃ verb, verb ∈ s.availableVerbs ∧ v = some verb.id) →
       verbInvariant (setVerb s v)) := by
  refine ⟨fun t => hinv, fun v => hinv, fun v => hinv, ?_, ?_, ?_⟩
  · intro v
    unfold setCategory categoryCascade
    split
    · split
      · split
        · exact hinv
        · trivial
      · exact hinv
    · exact hinv
  · intro v
    unfold setBloomLevel bloomCascade
    split
    · split
      · split
        · rename_i vs _
          cases vs with
          | nil => trivial
          | cons v0 rest => exact ⟨v0, List.mem_cons_self _ _, rfl⟩
        · trivial
      · trivial
    · trivial
  · intro v hv
    rcases hv with h | ⟨verb, hmem, hveq⟩
    · rw [h]; trivial
    · rw [hveq]; exact ⟨verb, hmem, rfl⟩

/-- C7 (witness): the invariant holds after a verb re-selection from the
rendered options and after a Bloom-level change, starting from the
concrete cascade state. -/
theorem C7_witness :
    verbInvariant (setVerb stCascade (some 12)) ∧
    verbInvariant (setBloomLevel stCascade (some 4)) :=
  ⟨(C7_verb_invariant stCascade ⟨verbEx1, by decide, rfl⟩).2.2.2.2.2 (some 12)
     (Or.inr ⟨verbEx2, by decide, rfl⟩),
   (C7_verb_invariant stCascade ⟨verbEx1, by decide, rfl⟩).2.2.2.2.1 (some 4)⟩

/-! ## Claim C8 -/

theorem sendMessageFinish_isTyping (s : ChatState) (r : NetResponse) :
    (sendMessageFinish s r).isTyping = false := by
  cases r with
  | transportFailure => rfl
  | httpResponse ok status body => cases ok <;> rfl

/-- C8: a non-2xx chat response appends one bot message whose text follows
the priority order (reply-text extraction if non-empty, else a truthy
`error` field, else the literal HTTP-status message); a transport failure
appends the literal connection-failure message; every exit path (success
included) clears `Busy`, and a subsequent non-blank, fileless submit is
accepted. -/
theorem C8_chat_errors (s : ChatState) (status : Nat) (body : Option JVal) :
    (sendMessageFinish s (.httpResponse false status body) =
       { s with
           messages := s.messages ++
             [{ role := "bot", text := chatErrText (body.getD (.obj [])) status,
                ilos := none, suggestedQuestions := none }],
           isTyping := false }) ∧
    (∀ data, extractReplyText data ≠ "" →
       chatErrText data status = extractReplyText data) ∧
    (∀ data e, extractReplyText data = "" → getField data "error" = some e →
       jsTruthy e = true → chatErrText data status = jsDisplay e) ∧
    (∀ data, extractReplyText data = "" → getField data "error" = none →
       chatErrText data status = s!"伺服器錯誤：HTTP {status}") ∧
    (∀ data e, extractReplyText data = "" → getField data "error" = some e →
       jsTruthy e = false → chatErrText data status = s!"伺服器錯誤：HTTP {status}") ∧
    (sendMessageFinish s .transportFailure =
       { s with
           messages := s.messages ++
             [{ role := "bot", text := "連線失敗：請稍後再試，或確認伺服器已啟動。",
                ilos := none, suggestedQuestions := none }],
           isTyping := false }) ∧
    (∀ r, (sendMessageFinish s r).isTyping = false) ∧
    (∀ r mt sug, resolvedText (sendMessageFinish s r) mt ≠ "" →
       (sendMessageFinish s r).uploadedFile = none →
       (sendMessageStart (sendMessageFinish s r) mt sug).2.isSome = true) := by
  refine ⟨rfl, ?_, ?_, ?_, ?_, rfl, sendMessageFinish_isTyping s, ?_⟩
  · intro data h
    unfold chatErrText
    rw [if_neg h]
  · intro data e h1 h2 h3
    unfold chatErrText
    rw [if_pos h1, h2]
    simp [h3]
  · intro data h1 h2
    unfold chatErrText
    rw [if_pos h1, h2]
  · intro data e h1 h2 h3
    unfold chatErrText
    rw [if_pos h1, h2]
    simp [h3]
  · intro r mt sug h1 h2
    unfold sendMessageStart
    rw [h2, sendMessageFinish_isTyping]
    simp [h1]

/-- C8 (witness): the spec's own scenario — a 500 with body
`{error:"boom"}` appends a bot message containing "boom" and a subsequent
submit is accepted. -/
theorem C8_witness :
    sendMessageFinish stChat (.httpResponse false 500 (some boomBody)) =
      { stChat with
          messages := stChat.messages ++
            [{ role := "bot", text := chatErrText boomBody 500,
               ilos := none, suggestedQuestions := none }],
          isTyping := false } ∧
    chatErrText boomBody 500 = "boom" ∧
    (sendMessageStart (sendMessageFinish stChat (.httpResponse false 500 (some boomBody)))
        (some "again") false).2.isSome = true :=
  ⟨(C8_chat_errors stChat 500 (some boomBody)).1,
   (C8_chat_errors stChat 500 (some boomBody)).2.2.1 boomBody (.str "boom") rfl rfl rfl,
   (C8_chat_errors stChat 500 (some boomBody)).2.2.2.2.2.2.2
     (.httpResponse false 500 (some boomBody)) (some "again") false (by decide) rfl⟩

/-! ## Claim C9 -/

theorem scanLoop_eq_find (s : ChatState) (acts : List JVal) :
    scanLoop s acts =
      match acts.find? actionMatches with
      | some a => { s with actionTemplates := some (mkDirective a) }
      | none => s := by
  induction acts with
  | nil => rfl
  | cons a rest ih =>
    by_cases h : actionMatches a = true
    · rw [scanLoop, if_pos h, List.find?_cons_of_pos _ h]
    · rw [scanLoop, if_neg h, List.find?_cons_of_neg _ h, ih]

/-- C9: the action scan takes the FIRST element with
`action_type == "show_pattern"` and a present (truthy) `payload.patterns`
as the new directive — later matches are ignored and a previously active
directive is replaced, while a scan with no match leaves it untouched;
`presentation` defaults to `"popup"` and `context` to `"ILO"` when absent;
and a 2xx chat response whose `actions` array has a first match installs
exactly that directive. -/
theorem C9_action_scan (s : ChatState) :
    (∀ acts, scanLoop s acts =
       match acts.find? actionMatches with
       | some a => { s with actionTemplates := some (mkDirective a) }
       | none => s) ∧
    (∀ a, optChain2 a "ui" "presentation" = none →
       (mkDirective a).presentation = .str "popup") ∧
    (∀ a, optChain2 a "target" "context" = none →
       (mkDirective a).context = .str "ILO") ∧
    (∀ status data acts a, getField data "actions" = some (.arr acts) →
       acts.find? actionMatches = some a →
       (sendMessageFinish s (.httpResponse true status (some data))).actionTemplates
         = some (mkDirective a)) := by
  refine ⟨scanLoop_eq_find s, ?_, ?_, ?_⟩
  · intro a h
    unfold mkDirective jsOrDefault
    rw [h]
  · intro a h
    unfold mkDirective jsOrDefault
    rw [h]
  · intro status data acts a hacts hfind
    unfold sendMessageFinish applyActions
    simp only [Option.getD_some, reduceIte]
    rw [hacts]
    dsimp only
    rw [scanLoop_eq_find, hfind]

/-- C9 (witness): the spec's own fixture — `[noop, show_pattern(patterns
[{id:1}]), show_pattern(patterns [{id:2}])]` installs the directive of the
SECOND element (the first match), carrying pattern id 1 only, with the
defaulted presentation and context. -/
theorem C9_witness :
    (sendMessageFinish emptyState
        (.httpResponse true 200 (some chatBodyWithActions))).actionTemplates
      = some (mkDirective actionShow1) ∧
    (mkDirective actionShow1).patterns = .arr [.obj [("id", .num 1)]] ∧
    (mkDirective actionShow1).presentation = .str "popup" ∧
    (mkDirective actionShow1).context = .str "ILO" :=
  ⟨(C9_action_scan emptyState).2.2.2 200 chatBodyWithActions actionsFixture actionShow1 rfl rfl,
   rfl,
   (C9_action_scan emptyState).2.1 actionShow1 rfl,
   (C9_action_scan emptyState).2.2.1 actionShow1 rfl⟩
